import Mathlib

/-!
Verification of the telemetry pipeline of carolinabencosme/practica-3.

The development shallowly embeds three parts of the repository:

* `Ingest` — the backend JMS ingestion path:
  `SensorReadingJmsListener.consume` / `validatePayload` / `toEntity` /
  `parseGeneratedAt` (backend/jms), the Bean Validation annotations of
  `SensorReadingJmsPayload` (backend/dto), the JPA entity `SensorReading`
  (backend/domain), the repository query
  `findTop50ByOrderByReceivedAtDesc`, and `SensorReadingResponse.fromEntity`.
  Java `Double` values are modelled as rationals, `java.time.Instant` as an
  integer count of epoch seconds, and nullable references as `Option`.
  External collaborators (Jackson's `ObjectMapper`, the system clock, the
  system time zone, and availability of the JPA store) are parameters of an
  `IngestEnv`.  A call of `consume` yields the successor store state, the
  control outcome (normal return, swallowed rejection, or a propagated
  exception) and the ordered trace of observable side effects.

* `Front` — the client aggregator of frontend/src/main.jsx:
  `toDeviceId` / `toTimestamp` / `toNumber` / `normalizeReading` /
  `addReading` with `MAX_POINTS = 60`.  JavaScript field values are
  modelled by `JsValue` (absent fields by `Option.none`), truthiness and
  the `||` / `??` operators explicitly, and the per-device series map as a
  function from device keys to lists.

* `Gen` — the simulator's connection resilience:
  `AppConfig.failoverUrl` translated from the source, together with a
  model (written from the specification, because the reconnection engine
  itself is the ActiveMQ failover transport, an external library) of the
  exponential backoff schedule that the URL parameters
  `maxReconnectAttempts=-1&initialReconnectDelay=1000&useExponentialBackOff=true`
  configure.
-/

namespace Ingest

/-- Calendar fields of a parsed timestamp (`java.time` temporal fields;
fractional seconds are accepted by the parser and discarded, as no claim
depends on sub-second precision). -/
structure DateTimeParts where
  year : Nat
  month : Nat
  day : Nat
  hour : Nat
  minute : Nat
  second : Nat
deriving DecidableEq

/-- Gregorian leap-year rule used by `java.time`. -/
def isLeapYear (y : Nat) : Bool :=
  decide ((y % 4 = 0 ∧ y % 100 ≠ 0) ∨ y % 400 = 0)

/-- Number of days of month `m` of year `y`. -/
def daysInMonth (y m : Nat) : Nat :=
  if m = 2 then (if isLeapYear y then 29 else 28)
  else if m = 4 ∨ m = 6 ∨ m = 9 ∨ m = 11 then 30
  else 31

/-- Strict field validation performed by `java.time` parsing: months 1..12,
day valid for the month, time-of-day fields in range. -/
def validParts (p : DateTimeParts) : Bool :=
  decide (1 ≤ p.month ∧ p.month ≤ 12 ∧ 1 ≤ p.day ∧
    p.day ≤ daysInMonth p.year p.month ∧
    p.hour ≤ 23 ∧ p.minute ≤ 59 ∧ p.second ≤ 59)

/-- Days from the civil date `y-m-d` to 1970-01-01 (standard
days-from-civil computation, as performed inside `java.time`). -/
def daysFromCivil (y m d : Int) : Int :=
  let y2 : Int := if m ≤ 2 then y - 1 else y
  let era : Int := (if 0 ≤ y2 then y2 else y2 - 399) / 400
  let yoe : Int := y2 - era * 400
  let mp : Int := (m + 9) % 12
  let doy : Int := (153 * mp + 2) / 5 + d - 1
  let doe : Int := yoe * 365 + yoe / 4 - yoe / 100 + doy
  era * 146097 + doe - 719468

/-- Epoch seconds of calendar fields read as UTC. -/
def toEpochSeconds (p : DateTimeParts) : Int :=
  daysFromCivil p.year p.month p.day * 86400 +
    (p.hour : Int) * 3600 + (p.minute : Int) * 60 + (p.second : Int)

/-- Numeric value of a decimal digit character. -/
def digitVal (c : Char) : Nat := c.toNat - 48

/-- Read exactly `n` decimal digits, accumulating their value. -/
def readDigits (acc : Nat) : Nat → List Char → Option (Nat × List Char)
  | 0, cs => some (acc, cs)
  | _ + 1, [] => none
  | n + 1, c :: cs =>
      if c.isDigit then readDigits (acc * 10 + digitVal c) n cs else none

/-- Consume one expected literal character. -/
def skipChar (c : Char) : List Char → Option (List Char)
  | [] => none
  | x :: xs => if x = c then some xs else none

/-- Drop a (possibly empty) run of leading digits. -/
def skipDigits : List Char → List Char
  | [] => []
  | c :: cs => if c.isDigit then skipDigits cs else c :: cs

/-- Consume an optional fractional-second part: either nothing, or a dot
followed by at least one digit. -/
def skipFraction : List Char → Option (List Char)
  | '.' :: rest =>
      match rest with
      | c :: _ => if c.isDigit then some (skipDigits rest) else none
      | [] => none
  | cs => some cs

/-- `Instant.parse` (strict absolute-instant parsing): accepts the
ISO-8601 UTC form `uuuu-MM-ddTHH:mm:ss(.f+)Z` exchanged in this system and
returns epoch seconds; anything else fails (`DateTimeParseException`). -/
def parseIsoInstant (s : String) : Option Int := do
  let (y, r1) ← readDigits 0 4 s.data
  let r2 ← skipChar '-' r1
  let (mo, r3) ← readDigits 0 2 r2
  let r4 ← skipChar '-' r3
  let (d, r5) ← readDigits 0 2 r4
  let r6 ← skipChar 'T' r5
  let (h, r7) ← readDigits 0 2 r6
  let r8 ← skipChar ':' r7
  let (mi, r9) ← readDigits 0 2 r8
  let r10 ← skipChar ':' r9
  let (sec, r11) ← readDigits 0 2 r10
  let r12 ← skipFraction r11
  let r13 ← skipChar 'Z' r12
  match r13 with
  | [] =>
      let p : DateTimeParts := ⟨y, mo, d, h, mi, sec⟩
      if validParts p then some (toEpochSeconds p) else none
  | _ => none

/-- `LocalDateTime.parse` against the fixed `ENDPOINT_DATE_FORMATTER`
pattern `dd/MM/yyyy HH:mm:ss`; returns the local calendar fields or fails
(`DateTimeParseException`). -/
def parseLocalDateTime (s : String) : Option DateTimeParts := do
  let (d, r1) ← readDigits 0 2 s.data
  let r2 ← skipChar '/' r1
  let (mo, r3) ← readDigits 0 2 r2
  let r4 ← skipChar '/' r3
  let (y, r5) ← readDigits 0 4 r4
  let r6 ← skipChar ' ' r5
  let (h, r7) ← readDigits 0 2 r6
  let r8 ← skipChar ':' r7
  let (mi, r9) ← readDigits 0 2 r8
  let r10 ← skipChar ':' r9
  let (sec, r11) ← readDigits 0 2 r10
  match r11 with
  | [] =>
      let p : DateTimeParts := ⟨y, mo, d, h, mi, sec⟩
      if validParts p then some p else none
  | _ => none

/-- `SensorReadingJmsListener.parseGeneratedAt`: first `Instant.parse`;
on `DateTimeParseException`, `LocalDateTime.parse` with the
`dd/MM/yyyy HH:mm:ss` formatter, interpreted at the ingestor's system
zone (modelled as a fixed offset east of UTC, in seconds).  `none`
models the `DateTimeParseException` that escapes when both parses fail. -/
def parseGeneratedAt (zoneOffset : Int) (s : String) : Option Int :=
  match parseIsoInstant s with
  | some i => some i
  | none =>
      match parseLocalDateTime s with
      | some p => some (toEpochSeconds p - zoneOffset)
      | none => none

/-- `SensorReadingJmsPayload` (backend/dto): the four JSON-mapped fields,
each a nullable reference. -/
structure SensorReadingJmsPayload where
  fechaGeneracion : Option String
  idDispositivo : Option Int
  temperatura : Option ℚ
  humedad : Option ℚ
deriving DecidableEq

/-- One Bean Validation constraint violation of `SensorReadingJmsPayload`,
named after the annotated field and constraint. -/
inductive Violation where
  | fechaGeneracionBlank
  | idDispositivoNull
  | temperaturaNull
  | temperaturaMin
  | temperaturaMax
  | humedadNull
  | humedadMin
  | humedadMax
deriving DecidableEq

/-- `@NotBlank` failure condition: a null string or one that trims to
empty, i.e. one all of whose characters are whitespace. -/
def isBlankOpt : Option String → Bool
  | none => true
  | some s => s.data.all Char.isWhitespace

/-- `validator.validate(payload)`: the set of violations of the
annotations of `SensorReadingJmsPayload` — `@NotBlank` on
`fechaGeneracion`, `@NotNull` on `idDispositivo`, `@NotNull @Min(-80)
@Max(120)` on `temperatura`, `@NotNull @Min(0) @Max(100)` on `humedad`.
Every constraint is checked; `@Min`/`@Max` treat null as valid, as Bean
Validation prescribes. -/
def violations (p : SensorReadingJmsPayload) : List Violation :=
  (if isBlankOpt p.fechaGeneracion then [.fechaGeneracionBlank] else []) ++
  (if p.idDispositivo = none then [.idDispositivoNull] else []) ++
  (match p.temperatura with
   | none => [.temperaturaNull]
   | some t =>
       (if t < -80 then [.temperaturaMin] else []) ++
       (if 120 < t then [.temperaturaMax] else [])) ++
  (match p.humedad with
   | none => [.humedadNull]
   | some h =>
       (if h < 0 then [.humedadMin] else []) ++
       (if 100 < h then [.humedadMax] else []))

/-- The `ConstraintViolationException` raised by `validatePayload`:
either the null-payload guard or the joined set of field violations. -/
inductive ValidationError where
  | nullPayload
  | violationsFound (vs : List Violation)
deriving DecidableEq

/-- `SensorReadingJmsListener.validatePayload`: reject a null payload,
otherwise collect all annotation violations and throw one
`ConstraintViolationException` carrying every one of them when the set is
non-empty. -/
def validatePayload (po : Option SensorReadingJmsPayload) :
    Except ValidationError SensorReadingJmsPayload :=
  match po with
  | none => .error .nullPayload
  | some p =>
      if (violations p).isEmpty then .ok p
      else .error (.violationsFound (violations p))

/-- The JPA entity `SensorReading` (backend/domain): identity assigned by
the store, instants as epoch seconds, nullable columns as `Option`. -/
structure SensorReading where
  id : Option Nat
  generatedAt : Int
  deviceId : Option Int
  temperature : Option ℚ
  humidity : Option ℚ
  receivedAt : Int
deriving DecidableEq

/-- The exception escaping `toEntity`: `Instant.parse(null)` raises a
`NullPointerException`, an unparseable text a `DateTimeParseException`. -/
inductive EntityError where
  | nullTimestamp
  | unparseableTimestamp
deriving DecidableEq

/-- `SensorReadingResponse` (backend/dto): the wire record broadcast to
the fan-out topic and returned by the historical query. -/
structure SensorReadingResponse where
  id : Option Nat
  generatedAt : Int
  deviceId : Option Int
  temperature : Option ℚ
  humidity : Option ℚ
  receivedAt : Int
deriving DecidableEq

/-- `SensorReadingResponse.fromEntity`: field-by-field copy of the
entity. -/
def SensorReadingResponse.fromEntity (r : SensorReading) :
    SensorReadingResponse :=
  ⟨r.id, r.generatedAt, r.deviceId, r.temperature, r.humidity, r.receivedAt⟩

/-- External collaborators of the listener: Jackson's
`objectMapper.readValue` (whose failure is a `JsonProcessingException`,
and which yields a null payload for the JSON text `null`), the system
clock read by `Instant.now()`, the system zone offset, and whether the
JPA store is reachable. -/
structure IngestEnv where
  readValue : String → Except Unit (Option SensorReadingJmsPayload)
  now : Int
  zoneOffset : Int
  storeUp : Bool

/-- State of the persistent store: the append-only list of saved rows and
the next identity value. -/
structure StoreState where
  store : List SensorReading
  nextId : Nat
deriving DecidableEq

/-- `repository.save`: append-only insert assigning the next identity. -/
def saveReading (st : StoreState) (r : SensorReading) :
    StoreState × SensorReading :=
  let saved := { r with id := some st.nextId }
  (⟨st.store ++ [saved], st.nextId + 1⟩, saved)

/-- `SensorReadingJmsListener.toEntity`: parse the generation timestamp
(`parseGeneratedAt`), copy device id, temperature and humidity verbatim,
and stamp `receivedAt` with the current instant. -/
def toEntity (env : IngestEnv) (p : SensorReadingJmsPayload) :
    Except EntityError SensorReading :=
  match p.fechaGeneracion with
  | none => .error .nullTimestamp
  | some s =>
      match parseGeneratedAt env.zoneOffset s with
      | none => .error .unparseableTimestamp
      | some g =>
          .ok ⟨none, g, p.idDispositivo, p.temperatura, p.humedad, env.now⟩

/-- How a `consume` call returns to the JMS container: a normal return, a
normal return after logging a rejected poison message, or a propagated
exception (which makes the transport redeliver). -/
inductive Outcome where
  | processed
  | rejected
  | thrown
deriving DecidableEq

/-- Observable side effects of one `consume` call, in program order. -/
inductive Event where
  | persist (r : SensorReading)
  | broadcast (resp : SensorReadingResponse)
  | logInfo
  | logWarn
  | logError
deriving DecidableEq

/-- `SensorReadingJmsListener.consume(String)`: parse the raw text into a
payload, validate it, build the entity, save it, then broadcast the
response to `/topic/readings`.  `ConstraintViolationException` and
`DateTimeParseException` are caught and logged (the message is consumed);
every other exception — a Jackson parse failure, the
`NullPointerException` of a null timestamp, or a store failure — reaches
the generic handler, is logged and rethrown wrapped in an
`IllegalArgumentException`. -/
def consume (env : IngestEnv) (st : StoreState) (raw : String) :
    StoreState × Outcome × List Event :=
  match env.readValue raw with
  | .error _ => (st, .thrown, [.logError])
  | .ok po =>
      match validatePayload po with
      | .error _ => (st, .rejected, [.logWarn])
      | .ok p =>
          match toEntity env p with
          | .error .unparseableTimestamp => (st, .rejected, [.logWarn])
          | .error .nullTimestamp => (st, .thrown, [.logError])
          | .ok entity =>
              if env.storeUp then
                let res := saveReading st entity
                let resp := SensorReadingResponse.fromEntity res.2
                (res.1, .processed,
                  [.persist res.2, .broadcast resp, .logInfo])
              else (st, .thrown, [.logError])

/-- Insert into a list kept sorted by `receivedAt`, most recent first. -/
def insertByReceivedAtDesc (r : SensorReading) :
    List SensorReading → List SensorReading
  | [] => [r]
  | x :: xs =>
      if r.receivedAt ≤ x.receivedAt then x :: insertByReceivedAtDesc r xs
      else r :: x :: xs

/-- Order a store by `receivedAt`, most recent first. -/
def sortByReceivedAtDesc (l : List SensorReading) : List SensorReading :=
  l.foldr insertByReceivedAtDesc []

/-- `repository.findTop50ByOrderByReceivedAtDesc`, the backing of the
`/api/readings/recent` historical query: most recent first, capped at
50. -/
def findTop50ByOrderByReceivedAtDesc (st : StoreState) :
    List SensorReading :=
  (sortByReceivedAtDesc st.store).take 50

end Ingest

namespace Front

/-- A JavaScript field value as the frontend sees it: `null`, a string,
or a finite number (modelled as a rational).  An absent field
(`undefined`) is `Option.none` at the use site. -/
inductive JsValue where
  | null
  | str (s : String)
  | num (q : ℚ)
deriving DecidableEq

/-- JavaScript truthiness of a present value: `null`, the empty string
and `0` are falsy. -/
def jsTruthy : JsValue → Bool
  | .null => false
  | .str s => decide (s ≠ "")
  | .num q => decide (q ≠ 0)

/-- A chain `a || b || ... || dflt` over possibly-absent fields: the
first present, truthy value, else the default. -/
def firstTruthy : List (Option JsValue) → JsValue → JsValue
  | [], dflt => dflt
  | none :: rest, dflt => firstTruthy rest dflt
  | some v :: rest, dflt =>
      if jsTruthy v then v else firstTruthy rest dflt

/-- The nullish-coalescing operator `a ?? b` over possibly-absent
fields: `b` when `a` is absent or `null`. -/
def nullishOr (a b : Option JsValue) : Option JsValue :=
  match a with
  | none => b
  | some .null => b
  | some v => some v

/-- A raw reading object as delivered by the historical fetch or the
live stream, before `normalizeReading`: every field it may carry, each
possibly absent. -/
structure RawReading where
  deviceId : Option JsValue
  idDispositivo : Option JsValue
  IdDispositivo : Option JsValue
  deviceID : Option JsValue
  timestamp : Option JsValue
  generatedAt : Option JsValue
  fechaGeneracion : Option JsValue
  fechaGeneracionAcc : Option JsValue
  time : Option JsValue
  temperatura : Option JsValue
  temperature : Option JsValue
  humedad : Option JsValue
  humidity : Option JsValue
deriving DecidableEq

/-- `toDeviceId`: first truthy of the alias chain
`deviceId || idDispositivo || IdDispositivo || deviceID`, else the
literal string value of the word for unknown used by the dashboard. -/
def toDeviceId (r : RawReading) : JsValue :=
  firstTruthy [r.deviceId, r.idDispositivo, r.IdDispositivo, r.deviceID]
    (.str "desconocido")

/-- The client's environment: the current wall-clock time rendered by
`new Date().toISOString()`. -/
structure FrontEnv where
  nowIso : String

/-- `toTimestamp`: first truthy of the alias chain
`timestamp || generatedAt || fechaGeneracion || fechaGeneración || time`,
else the client's current time. -/
def toTimestamp (env : FrontEnv) (r : RawReading) : JsValue :=
  firstTruthy
    [r.timestamp, r.generatedAt, r.fechaGeneracion, r.fechaGeneracionAcc,
      r.time]
    (.str env.nowIso)

/-- `Number(x)` restricted to the shapes this system exchanges:
`undefined` gives NaN, `null` gives 0, a number gives itself, and a
string is read as an optionally-signed decimal literal (after trimming;
the empty string gives 0).  `none` stands for NaN. -/
def strToNumber (s : String) : Option ℚ :=
  let t := s.trim
  if t = "" then some 0
  else
    let (sign, body) :=
      match t.data with
      | '-' :: rest => ((-1 : ℚ), rest)
      | '+' :: rest => ((1 : ℚ), rest)
      | cs => ((1 : ℚ), cs)
    let intPart := body.takeWhile Char.isDigit
    let rest := body.dropWhile Char.isDigit
    let (fracPart, rest2) :=
      match rest with
      | '.' :: more => (more.takeWhile Char.isDigit, more.dropWhile Char.isDigit)
      | _ => ([], rest)
    if rest2 = [] ∧ (intPart ≠ [] ∨ fracPart ≠ []) then
      let iv : ℚ := (intPart.foldl (fun a c => a * 10 + (c.toNat - 48)) 0 : ℕ)
      let fv : ℚ := (fracPart.foldl (fun a c => a * 10 + (c.toNat - 48)) 0 : ℕ)
      some (sign * (iv + fv / (10 : ℚ) ^ fracPart.length))
    else none

/-- `Number` applied to a possibly-absent field value. -/
def jsNumber : Option JsValue → Option ℚ
  | none => none
  | some .null => some 0
  | some (.num q) => some q
  | some (.str s) => strToNumber s

/-- `toNumber(value)`: `Number(value)` when finite, else `null`.  The
model already collapses NaN to `none`, so this is `jsNumber`. -/
def toNumber (v : Option JsValue) : Option ℚ := jsNumber v

/-- A normalized reading kept in a `DeviceSeries`. -/
structure Reading where
  deviceId : JsValue
  timestamp : JsValue
  temperatura : Option ℚ
  humedad : Option ℚ
deriving DecidableEq

/-- `normalizeReading(raw)`: resolve the device-id and timestamp alias
chains and convert the numeric fields, never rejecting the record. -/
def normalizeReading (env : FrontEnv) (raw : RawReading) : Reading :=
  { deviceId := toDeviceId raw
    timestamp := toTimestamp env raw
    temperatura := toNumber (nullishOr raw.temperatura raw.temperature)
    humedad := toNumber (nullishOr raw.humedad raw.humidity) }

/-- `MAX_POINTS`: capacity of one device series. -/
def MAX_POINTS : Nat := 60

/-- The dashboard's per-device series state, `readingsByDevice`.  A
JavaScript object keyed by the device id; modelled as a total map from
field value to series (the backend emits one representation per device,
so the string coercion JavaScript applies to keys collapses nothing
here). -/
def DeviceMap : Type := JsValue → List Reading

/-- The initial, empty `readingsByDevice` state. -/
def emptyMap : DeviceMap := fun _ => []

/-- `addReading(state, reading)`: ignore a reading whose device id is
null, otherwise append it to its device's series and keep the last
`MAX_POINTS` entries (`slice(-MAX_POINTS)`). -/
def addReading (st : DeviceMap) (r : Reading) : DeviceMap :=
  if r.deviceId = JsValue.null then st
  else
    fun k =>
      if k = r.deviceId then
        let updated := st r.deviceId ++ [r]
        updated.drop (updated.length - MAX_POINTS)
      else st k

end Front

namespace Gen

/-- `AppConfig.failoverUrl` (simulator): wrap the broker URL in the
ActiveMQ failover transport configuration unless it already is one. -/
def failoverUrl (brokerUrl : String) : String :=
  if "failover:(".data.isPrefixOf brokerUrl.data then brokerUrl
  else
    "failover:(" ++ brokerUrl ++
      ")?maxReconnectAttempts=-1&initialReconnectDelay=1000&useExponentialBackOff=true"

/-- The default `BROKER_URL` of `AppConfig.load`. -/
def defaultBrokerUrl : String := "tcp://activemq:61616"

/-- Modelled from the spec: the delay the failover transport waits after
the `(k+1)`-th consecutive connection failure — the fixed initial delay
doubled at each repetition (`initialReconnectDelay`,
`useExponentialBackOff` with the default growth multiplier 2). -/
def backoffDelay (initial k : Nat) : Nat := initial * 2 ^ k

/-- Modelled from the spec: time elapsed between the first connection
failure and the `(n+1)`-th connection attempt, the sum of the first `n`
backoff delays. -/
def attemptOffset (initial : Nat) : Nat → Nat
  | 0 => 0
  | n + 1 => attemptOffset initial n + backoffDelay initial n

/-- Modelled from the spec: whether the transport abandons reconnection
after `n` failed attempts under a `maxReconnectAttempts` setting; a
negative setting means no retry ceiling. -/
def givesUpAfter (maxReconnectAttempts : Int) (n : Nat) : Bool :=
  if maxReconnectAttempts < 0 then false
  else decide (maxReconnectAttempts.toNat < n)

/-- Modelled from the spec: connection state of the generator's
publisher — publishing at the configured interval, or backing off after
`failures` consecutive connection failures. -/
inductive GenState where
  | publishing
  | backingOff (failures : Nat)
deriving DecidableEq

/-- Observable actions of one step of the generator's state machine. -/
inductive GenEvent where
  | published
  | reconnectScheduled (delay : Nat)
deriving DecidableEq

/-- Modelled from the spec: one step of the generator's
reconnect/publish state machine, driven by whether the transport is
reachable.  A failure while publishing starts backoff; a failed
reconnect doubles the delay; a successful reconnect resumes
normal-interval publishing in the same process. -/
def genStep (initial : Nat) : GenState → Bool → GenState × List GenEvent
  | .publishing, true => (.publishing, [.published])
  | .publishing, false =>
      (.backingOff 1, [.reconnectScheduled (backoffDelay initial 0)])
  | .backingOff _, true => (.publishing, [])
  | .backingOff n, false =>
      (.backingOff (n + 1), [.reconnectScheduled (backoffDelay initial n)])

end Gen

namespace Front

/-- The last `n` elements of a list, in order: the value of
`slice(-n)` on an array.  `addReading` computes exactly this on the
extended series. -/
def lastN {α : Type _} (n : Nat) (l : List α) : List α :=
  l.drop (l.length - n)

/-- Concrete reading used to instantiate the series theorems. -/
def wReading : Reading := ⟨.str "a", .str "t", some 1, some 2⟩

/-- Concrete raw object with every field absent, used to instantiate the
normalization-defaults theorem. -/
def wRawEmpty : RawReading :=
  ⟨none, none, none, none, none, none, none, none, none, none, none, none,
    none⟩

end Front

namespace Ingest

/-- Concrete valid payload used to instantiate theorems. -/
def wPayload : SensorReadingJmsPayload :=
  ⟨some "2024-05-06T07:08:09Z", some 7, some 25, some 40⟩

/-- Concrete payload with temperature 150, outside the domain. -/
def wBadTempPayload : SensorReadingJmsPayload :=
  ⟨some "2024-05-06T07:08:09Z", some 7, some 150, some 40⟩

/-- Concrete payload with a null device id. -/
def wNullIdPayload : SensorReadingJmsPayload :=
  ⟨some "2024-05-06T07:08:09Z", none, some 25, some 40⟩

/-- Concrete payload whose timestamp text matches neither accepted
format. -/
def wBadDatePayload : SensorReadingJmsPayload :=
  ⟨some "fecha-mala", some 7, some 25, some 40⟩

/-- Concrete payload whose timestamp uses the local
`dd/MM/yyyy HH:mm:ss` pattern. -/
def wLocalDatePayload : SensorReadingJmsPayload :=
  ⟨some "06/05/2024 07:08:09", some 7, some 25, some 40⟩

/-- The empty store. -/
def st0 : StoreState := ⟨[], 0⟩

/-- Environment whose message text parses to `wPayload`, with the store
reachable. -/
def wEnvOk : IngestEnv := ⟨fun _ => .ok (some wPayload), 100, 0, true⟩

/-- Environment whose message text parses to `wPayload`, with the store
unreachable. -/
def wEnvDown : IngestEnv := ⟨fun _ => .ok (some wPayload), 100, 0, false⟩

/-- Environment whose message text is malformed (Jackson fails). -/
def wEnvJsonErr : IngestEnv := ⟨fun _ => .error (), 100, 0, true⟩

/-- Environment delivering the out-of-domain payload. -/
def wEnvBadTemp : IngestEnv :=
  ⟨fun _ => .ok (some wBadTempPayload), 100, 0, true⟩

/-- Environment delivering the null-device-id payload. -/
def wEnvNullId : IngestEnv :=
  ⟨fun _ => .ok (some wNullIdPayload), 100, 0, true⟩

/-- Environment delivering the unparseable-timestamp payload. -/
def wEnvBadDate : IngestEnv :=
  ⟨fun _ => .ok (some wBadDatePayload), 100, 0, true⟩

/-- The row that ingesting `wPayload` into the empty store persists. -/
def wSaved : SensorReading :=
  ⟨some 0, 1714979289, some 7, some 25, some 40, 100⟩

/-- The response broadcast for `wSaved`. -/
def wResp : SensorReadingResponse := SensorReadingResponse.fromEntity wSaved

end Ingest

namespace Ingest

theorem validatePayload_ok_iff (p : SensorReadingJmsPayload) :
    validatePayload (some p) = .ok p ↔ violations p = [] := by
  rcases hv : violations p with _ | ⟨v, vs⟩ <;> simp [validatePayload, hv]

theorem validatePayload_error_of_ne_nil (p : SensorReadingJmsPayload)
    (h : violations p ≠ []) :
    validatePayload (some p) = .error (.violationsFound (violations p)) := by
  rcases hv : violations p with _ | ⟨v, vs⟩
  · exact absurd hv h
  · simp [validatePayload, hv]

theorem violations_eq_nil_iff (p : SensorReadingJmsPayload) :
    violations p = [] ↔
      (isBlankOpt p.fechaGeneracion = false ∧ p.idDispositivo ≠ none ∧
        (∃ t, p.temperatura = some t ∧ -80 ≤ t ∧ t ≤ 120) ∧
        (∃ h, p.humedad = some h ∧ 0 ≤ h ∧ h ≤ 100)) := by
  rcases p with ⟨f, i, t, h⟩
  rcases t with _ | t <;> rcases h with _ | h <;>
    by_cases hf : isBlankOpt f <;> rcases i with _ | i <;>
      simp [violations, hf] <;> (try split_ifs) <;> simp_all <;> tauto

theorem mem_violations_fechaBlank (p : SensorReadingJmsPayload) :
    Violation.fechaGeneracionBlank ∈ violations p ↔
      isBlankOpt p.fechaGeneracion = true := by
  rcases p with ⟨f, i, t, h⟩
  rcases t with _ | t <;> rcases h with _ | h <;>
    by_cases hf : isBlankOpt f <;> rcases i with _ | i <;>
      simp [violations, hf] <;> (try split_ifs) <;> simp_all

theorem mem_violations_idNull (p : SensorReadingJmsPayload) :
    Violation.idDispositivoNull ∈ violations p ↔ p.idDispositivo = none := by
  rcases p with ⟨f, i, t, h⟩
  rcases t with _ | t <;> rcases h with _ | h <;>
    by_cases hf : isBlankOpt f <;> rcases i with _ | i <;>
      simp [violations, hf] <;> (try split_ifs) <;> simp_all

theorem mem_violations_tempNull (p : SensorReadingJmsPayload) :
    Violation.temperaturaNull ∈ violations p ↔ p.temperatura = none := by
  rcases p with ⟨f, i, t, h⟩
  rcases t with _ | t <;> rcases h with _ | h <;>
    by_cases hf : isBlankOpt f <;> rcases i with _ | i <;>
      simp [violations, hf] <;> (try split_ifs) <;> simp_all

theorem mem_violations_tempMin (p : SensorReadingJmsPayload) :
    Violation.temperaturaMin ∈ violations p ↔
      ∃ t, p.temperatura = some t ∧ t < -80 := by
  rcases p with ⟨f, i, t, h⟩
  rcases t with _ | t <;> rcases h with _ | h <;>
    by_cases hf : isBlankOpt f <;> rcases i with _ | i <;>
      simp [violations, hf] <;> (try split_ifs) <;> simp_all

theorem mem_violations_tempMax (p : SensorReadingJmsPayload) :
    Violation.temperaturaMax ∈ violations p ↔
      ∃ t, p.temperatura = some t ∧ 120 < t := by
  rcases p with ⟨f, i, t, h⟩
  rcases t with _ | t <;> rcases h with _ | h <;>
    by_cases hf : isBlankOpt f <;> rcases i with _ | i <;>
      simp [violations, hf] <;> (try split_ifs) <;> simp_all

theorem mem_violations_humNull (p : SensorReadingJmsPayload) :
    Violation.humedadNull ∈ violations p ↔ p.humedad = none := by
  rcases p with ⟨f, i, t, h⟩
  rcases t with _ | t <;> rcases h with _ | h <;>
    by_cases hf : isBlankOpt f <;> rcases i with _ | i <;>
      simp [violations, hf] <;> (try split_ifs) <;> simp_all

theorem mem_violations_humMin (p : SensorReadingJmsPayload) :
    Violation.humedadMin ∈ violations p ↔
      ∃ h, p.humedad = some h ∧ h < 0 := by
  rcases p with ⟨f, i, t, h⟩
  rcases t with _ | t <;> rcases h with _ | h <;>
    by_cases hf : isBlankOpt f <;> rcases i with _ | i <;>
      simp [violations, hf] <;> (try split_ifs) <;> simp_all

theorem mem_violations_humMax (p : SensorReadingJmsPayload) :
    Violation.humedadMax ∈ violations p ↔
      ∃ h, p.humedad = some h ∧ 100 < h := by
  rcases p with ⟨f, i, t, h⟩
  rcases t with _ | t <;> rcases h with _ | h <;>
    by_cases hf : isBlankOpt f <;> rcases i with _ | i <;>
      simp [violations, hf] <;> (try split_ifs) <;> simp_all

theorem consume_of_readValue_error (env : IngestEnv) (st : StoreState)
    (raw : String) (e : Unit) (h : env.readValue raw = .error e) :
    consume env st raw = (st, .thrown, [.logError]) := by
  simp [consume, h]

theorem consume_of_validation_error (env : IngestEnv) (st : StoreState)
    (raw : String) (po : Option SensorReadingJmsPayload)
    (ve : ValidationError) (h1 : env.readValue raw = .ok po)
    (h2 : validatePayload po = .error ve) :
    consume env st raw = (st, .rejected, [.logWarn]) := by
  simp [consume, h1, h2]

theorem consume_of_bad_timestamp (env : IngestEnv) (st : StoreState)
    (raw : String) (p : SensorReadingJmsPayload) (s : String)
    (h1 : env.readValue raw = .ok (some p))
    (h2 : p.fechaGeneracion = some s)
    (h3 : parseGeneratedAt env.zoneOffset s = none) :
    consume env st raw = (st, .rejected, [.logWarn]) := by
  rcases hv : violations p with _ | ⟨v, vs⟩
  · have hok : validatePayload (some p) = .ok p :=
      (validatePayload_ok_iff p).mpr hv
    simp [consume, h1, hok, toEntity, h2, h3]
  · have herr : validatePayload (some p) =
        .error (.violationsFound (violations p)) :=
      validatePayload_error_of_ne_nil p (by simp [hv])
    simp [consume, h1, herr]

theorem consume_of_valid_payload (env : IngestEnv) (st : StoreState)
    (raw : String) (p : SensorReadingJmsPayload) (s : String) (g : Int)
    (h1 : env.readValue raw = .ok (some p))
    (hv : violations p = [])
    (h2 : p.fechaGeneracion = some s)
    (h3 : parseGeneratedAt env.zoneOffset s = some g)
    (h4 : env.storeUp = true) :
    consume env st raw =
      (⟨st.store ++
          [⟨some st.nextId, g, p.idDispositivo, p.temperatura, p.humedad,
            env.now⟩],
        st.nextId + 1⟩,
       .processed,
       [.persist
          ⟨some st.nextId, g, p.idDispositivo, p.temperatura, p.humedad,
            env.now⟩,
        .broadcast
          (SensorReadingResponse.fromEntity
            ⟨some st.nextId, g, p.idDispositivo, p.temperatura, p.humedad,
              env.now⟩),
        .logInfo]) := by
  have hok : validatePayload (some p) = .ok p :=
    (validatePayload_ok_iff p).mpr hv
  simp [consume, h1, hok, toEntity, h2, h3, h4, saveReading]

theorem consume_of_store_down (env : IngestEnv) (st : StoreState)
    (raw : String) (p : SensorReadingJmsPayload) (s : String) (g : Int)
    (h1 : env.readValue raw = .ok (some p))
    (hv : violations p = [])
    (h2 : p.fechaGeneracion = some s)
    (h3 : parseGeneratedAt env.zoneOffset s = some g)
    (h4 : env.storeUp = false) :
    consume env st raw = (st, .thrown, [.logError]) := by
  have hok : validatePayload (some p) = .ok p :=
    (validatePayload_ok_iff p).mpr hv
  simp [consume, h1, hok, toEntity, h2, h3, h4]

theorem sortByReceivedAtDesc_append_strictmax (l : List SensorReading)
    (r : SensorReading) (h : ∀ y ∈ l, y.receivedAt < r.receivedAt) :
    sortByReceivedAtDesc (l ++ [r]) = r :: sortByReceivedAtDesc l := by
  unfold sortByReceivedAtDesc
  rw [List.foldr_append]
  have base : List.foldr insertByReceivedAtDesc [] [r] = [r] := rfl
  rw [base]
  induction l with
  | nil => rfl
  | cons x xs ih =>
      have hx : x.receivedAt < r.receivedAt := h x (by simp)
      have ih2 := ih (fun y hy => h y (by simp [hy]))
      simp only [List.foldr_cons, ih2, insertByReceivedAtDesc]
      rw [if_pos (le_of_lt hx)]

theorem validatePayload_ok_elim (po : Option SensorReadingJmsPayload)
    (p : SensorReadingJmsPayload) (h : validatePayload po = .ok p) :
    po = some p ∧ violations p = [] := by
  cases po with
  | none => simp [validatePayload] at h
  | some q =>
      rcases hv : violations q with _ | ⟨v, vs⟩
      · have hq := (validatePayload_ok_iff q).mpr hv
        rw [hq] at h
        cases h
        exact ⟨rfl, hv⟩
      · have hq := validatePayload_error_of_ne_nil q (by simp [hv])
        rw [hq] at h
        cases h

theorem consume_of_null_timestamp (env : IngestEnv) (st : StoreState)
    (raw : String) (p : SensorReadingJmsPayload)
    (h1 : env.readValue raw = .ok (some p))
    (hv : violations p = [])
    (h2 : p.fechaGeneracion = none) :
    consume env st raw = (st, .thrown, [.logError]) := by
  have hok : validatePayload (some p) = .ok p :=
    (validatePayload_ok_iff p).mpr hv
  simp [consume, h1, hok, toEntity, h2]

/-- C1: for every consumed message that parses and validates
successfully, the persist of the normalized sample (the store append
assigning identity) occurs strictly before its broadcast in the side
effect trace of `consume`, so any sample observable on the live feed is
already a row of the persistent store — and, as long as the ingestion
clock is ahead of every already stored row, it is returned by the
`fetch-recent` query. -/
theorem persist_happens_before_broadcast (env : IngestEnv) (st : StoreState)
    (raw : String) (resp : SensorReadingResponse)
    (h : Event.broadcast resp ∈ (consume env st raw).2.2) :
    ∃ r : SensorReading,
      resp = SensorReadingResponse.fromEntity r ∧
      r ∈ (consume env st raw).1.store ∧
      (∃ post, (consume env st raw).2.2 = Event.persist r :: post ∧
        Event.broadcast resp ∈ post) ∧
      ((∀ y ∈ st.store, y.receivedAt < env.now) →
        r ∈ findTop50ByOrderByReceivedAtDesc (consume env st raw).1) := by
  cases hrv : env.readValue raw with
  | error e =>
      rw [consume_of_readValue_error env st raw e hrv] at h
      simp at h
  | ok po =>
      cases hvp : validatePayload po with
      | error ve =>
          rw [consume_of_validation_error env st raw po ve hrv hvp] at h
          simp at h
      | ok p =>
          obtain ⟨hpo, hv⟩ := validatePayload_ok_elim po p hvp
          subst hpo
          rcases hf : p.fechaGeneracion with _ | s
          · rw [consume_of_null_timestamp env st raw p hrv hv hf] at h
            simp at h
          · rcases hp : parseGeneratedAt env.zoneOffset s with _ | g
            · rw [consume_of_bad_timestamp env st raw p s hrv hf hp] at h
              simp at h
            · cases hs : env.storeUp
              · rw [consume_of_store_down env st raw p s g hrv hv hf hp hs]
                  at h
                simp at h
              · have hc := consume_of_valid_payload env st raw p s g hrv hv
                  hf hp hs
                rw [hc] at h ⊢
                simp only [List.mem_cons, List.not_mem_nil, or_false] at h
                rcases h with h | h | h
                · cases h
                · cases h
                  refine ⟨_, rfl, by simp, ⟨_, rfl, by simp⟩, ?_⟩
                  intro hmax
                  have hsort := sortByReceivedAtDesc_append_strictmax
                    st.store
                    ⟨some st.nextId, g, p.idDispositivo, p.temperatura,
                      p.humedad, env.now⟩
                    hmax
                  simp [findTop50ByOrderByReceivedAtDesc, hsort]
                · cases h

/-- C2: `validatePayload` collects every annotation violation of the
payload — blank or missing timestamp, null device id, and null or
out-of-domain temperature and humidity — into one
`ConstraintViolationException` carrying the full violation set, instead
of stopping at the first, and a payload with zero violations passes. -/
theorem validate_collects_every_violation (p : SensorReadingJmsPayload) :
    (validatePayload (some p) = .ok p ↔ violations p = []) ∧
    (violations p ≠ [] →
      validatePayload (some p) = .error (.violationsFound (violations p))) ∧
    (Violation.fechaGeneracionBlank ∈ violations p ↔
      isBlankOpt p.fechaGeneracion = true) ∧
    (Violation.idDispositivoNull ∈ violations p ↔ p.idDispositivo = none) ∧
    (Violation.temperaturaNull ∈ violations p ↔ p.temperatura = none) ∧
    (Violation.temperaturaMin ∈ violations p ↔
      ∃ t, p.temperatura = some t ∧ t < -80) ∧
    (Violation.temperaturaMax ∈ violations p ↔
      ∃ t, p.temperatura = some t ∧ 120 < t) ∧
    (Violation.humedadNull ∈ violations p ↔ p.humedad = none) ∧
    (Violation.humedadMin ∈ violations p ↔
      ∃ h, p.humedad = some h ∧ h < 0) ∧
    (Violation.humedadMax ∈ violations p ↔
      ∃ h, p.humedad = some h ∧ 100 < h) :=
  ⟨validatePayload_ok_iff p, validatePayload_error_of_ne_nil p,
    mem_violations_fechaBlank p, mem_violations_idNull p,
    mem_violations_tempNull p, mem_violations_tempMin p,
    mem_violations_tempMax p, mem_violations_humNull p,
    mem_violations_humMin p, mem_violations_humMax p⟩

theorem validate_collects_every_violation_witness :
    validatePayload (some wBadTempPayload) =
      .error (.violationsFound (violations wBadTempPayload)) :=
  (validate_collects_every_violation wBadTempPayload).2.1
    (List.ne_nil_of_mem
      ((validate_collects_every_violation wBadTempPayload).2.2.2.2.2.2.1.mpr
        ⟨150, rfl, by norm_num⟩))

/-- C3: a payload whose temperature lies in [-80, 120], humidity in
[0, 100], device id is non-null and timestamp is non-null and non-blank
passes validation, and `toEntity` copies the temperature and humidity
values into the entity exactly, without altering them. -/
theorem valid_sample_passes_and_is_preserved
    (p : SensorReadingJmsPayload) (s : String) (t hq : ℚ)
    (hs : p.fechaGeneracion = some s)
    (hnb : isBlankOpt (some s) = false)
    (hid : p.idDispositivo ≠ none)
    (ht : p.temperatura = some t) (ht1 : -80 ≤ t) (ht2 : t ≤ 120)
    (hh : p.humedad = some hq) (hh1 : 0 ≤ hq) (hh2 : hq ≤ 100) :
    validatePayload (some p) = .ok p ∧
    ∀ (env : IngestEnv) (e : SensorReading), toEntity env p = .ok e →
      e.temperature = some t ∧ e.humidity = some hq := by
  have hv : violations p = [] := by
    refine (violations_eq_nil_iff p).mpr
      ⟨?_, hid, ⟨t, ht, ht1, ht2⟩, ⟨hq, hh, hh1, hh2⟩⟩
    rw [hs]
    exact hnb
  refine ⟨(validatePayload_ok_iff p).mpr hv, ?_⟩
  intro env e he
  unfold toEntity at he
  split at he
  · cases he
  · split at he
    · cases he
    · cases he
      simp [ht, hh]

theorem valid_sample_passes_and_is_preserved_witness :
    validatePayload (some wPayload) = .ok wPayload ∧
    ∀ (env : IngestEnv) (e : SensorReading),
      toEntity env wPayload = .ok e →
      e.temperature = some 25 ∧ e.humidity = some 40 :=
  valid_sample_passes_and_is_preserved wPayload "2024-05-06T07:08:09Z"
    25 40 rfl (by decide) (by decide) rfl (by norm_num)
    (by norm_num) rfl (by norm_num) (by norm_num)

/-- C4: a payload with temperature 150 or a null device id fails
validation; `consume` returns after logging the rejection, the store is
unchanged, and no persist and no broadcast event occurs for that
message. -/
theorem invalid_sample_not_persisted_nor_broadcast (env : IngestEnv)
    (st : StoreState) (raw : String) (p : SensorReadingJmsPayload)
    (h1 : env.readValue raw = .ok (some p))
    (h2 : p.temperatura = some 150 ∨ p.idDispositivo = none) :
    consume env st raw = (st, .rejected, [.logWarn]) ∧
    (consume env st raw).1.store = st.store ∧
    (∀ r, Event.persist r ∉ (consume env st raw).2.2) ∧
    (∀ q, Event.broadcast q ∉ (consume env st raw).2.2) := by
  have hne : violations p ≠ [] := by
    rcases h2 with h2 | h2
    · exact List.ne_nil_of_mem
        ((mem_violations_tempMax p).mpr ⟨150, h2, by norm_num⟩)
    · exact List.ne_nil_of_mem ((mem_violations_idNull p).mpr h2)
  have hc := consume_of_validation_error env st raw (some p) _ h1
    (validatePayload_error_of_ne_nil p hne)
  refine ⟨hc, by rw [hc], ?_, ?_⟩ <;> intro x <;> rw [hc] <;> simp

theorem invalid_sample_not_persisted_nor_broadcast_witness :
    consume wEnvBadTemp st0 "m" = (st0, .rejected, [.logWarn]) ∧
    (consume wEnvBadTemp st0 "m").1.store = st0.store ∧
    (∀ r, Event.persist r ∉ (consume wEnvBadTemp st0 "m").2.2) ∧
    (∀ q, Event.broadcast q ∉ (consume wEnvBadTemp st0 "m").2.2) :=
  invalid_sample_not_persisted_nor_broadcast wEnvBadTemp st0 "m"
    wBadTempPayload rfl (Or.inl rfl)

/-- C5: timestamp normalization first attempts strict absolute-instant
parsing; only on failure does it attempt the fixed local pattern
`dd/MM/yyyy HH:mm:ss` at the ingestor's zone; and when both fail the
message is rejected as a whole — logged, with nothing persisted and
nothing broadcast. -/
theorem timestamp_two_stage_parse :
    (∀ (zo : Int) (s : String) (i : Int), parseIsoInstant s = some i →
      parseGeneratedAt zo s = some i) ∧
    (∀ (zo : Int) (s : String) (p : DateTimeParts),
      parseIsoInstant s = none → parseLocalDateTime s = some p →
      parseGeneratedAt zo s = some (toEpochSeconds p - zo)) ∧
    (∀ (zo : Int) (s : String), parseIsoInstant s = none →
      parseLocalDateTime s = none → parseGeneratedAt zo s = none) ∧
    (∀ (env : IngestEnv) (st : StoreState) (raw : String)
      (p : SensorReadingJmsPayload) (s : String),
      env.readValue raw = .ok (some p) → p.fechaGeneracion = some s →
      parseGeneratedAt env.zoneOffset s = none →
      consume env st raw = (st, .rejected, [.logWarn])) := by
  refine ⟨?_, ?_, ?_, ?_⟩
  · intro zo s i h
    simp [parseGeneratedAt, h]
  · intro zo s p h1 h2
    simp [parseGeneratedAt, h1, h2]
  · intro zo s h1 h2
    simp [parseGeneratedAt, h1, h2]
  · intro env st raw p s h1 h2 h3
    exact consume_of_bad_timestamp env st raw p s h1 h2 h3

theorem timestamp_two_stage_parse_witness :
    parseGeneratedAt 0 "06/05/2024 07:08:09" =
      some (toEpochSeconds ⟨2024, 5, 6, 7, 8, 9⟩ - 0) ∧
    consume wEnvBadDate st0 "m" = (st0, .rejected, [.logWarn]) :=
  ⟨timestamp_two_stage_parse.2.1 0 "06/05/2024 07:08:09"
      ⟨2024, 5, 6, 7, 8, 9⟩ (by decide) (by decide),
    timestamp_two_stage_parse.2.2.2 wEnvBadDate st0 "m" wBadDatePayload
      "fecha-mala" rfl rfl (by decide)⟩

/-- C6 counterexample: a malformed payload text (Jackson parse failure)
is NOT terminal — `consume` logs an error and rethrows, so the transport
redelivers the message, contradicting the claim that a ParseError is
consumed and never redelivered. -/
theorem parse_error_is_rethrown_cex :
    consume wEnvJsonErr st0 "texto-no-json" = (st0, Outcome.thrown, [Event.logError])
      ∧ Outcome.thrown ≠ Outcome.rejected :=
  ⟨rfl, by decide⟩

/-- C6 (amended): a ValidationError and a timestamp-parse failure
(`DateTimeParseException`) are terminal — logged, the message consumed,
the store untouched, nothing rethrown — while a malformed payload text
(the Jackson parse failure) and any other failure such as an
unavailable store propagate out of `consume`, so the transport
redelivers the message. -/
theorem terminal_vs_propagating_failures :
    (∀ (env : IngestEnv) (st : StoreState) (raw : String) (e : Unit),
      env.readValue raw = .error e →
      consume env st raw = (st, .thrown, [.logError])) ∧
    (∀ (env : IngestEnv) (st : StoreState) (raw : String)
      (po : Option SensorReadingJmsPayload) (ve : ValidationError),
      env.readValue raw = .ok po → validatePayload po = .error ve →
      consume env st raw = (st, .rejected, [.logWarn])) ∧
    (∀ (env : IngestEnv) (st : StoreState) (raw : String)
      (p : SensorReadingJmsPayload) (s : String),
      env.readValue raw = .ok (some p) → p.fechaGeneracion = some s →
      parseGeneratedAt env.zoneOffset s = none →
      consume env st raw = (st, .rejected, [.logWarn])) ∧
    (∀ (env : IngestEnv) (st : StoreState) (raw : String)
      (p : SensorReadingJmsPayload) (s : String) (g : Int),
      env.readValue raw = .ok (some p) → violations p = [] →
      p.fechaGeneracion = some s →
      parseGeneratedAt env.zoneOffset s = some g → env.storeUp = false →
      consume env st raw = (st, .thrown, [.logError])) :=
  ⟨consume_of_readValue_error, consume_of_validation_error,
    consume_of_bad_timestamp, consume_of_store_down⟩

theorem terminal_vs_propagating_failures_witness :
    consume wEnvDown st0 "m" = (st0, .thrown, [.logError]) ∧
    consume wEnvBadTemp st0 "m" = (st0, .rejected, [.logWarn]) :=
  ⟨terminal_vs_propagating_failures.2.2.2 wEnvDown st0 "m" wPayload
      "2024-05-06T07:08:09Z" 1714979289 rfl (by decide) rfl (by decide)
      rfl,
    terminal_vs_propagating_failures.2.1 wEnvBadTemp st0 "m"
      (some wBadTempPayload) (.violationsFound (violations wBadTempPayload))
      rfl (validatePayload_error_of_ne_nil wBadTempPayload (by decide))⟩

theorem persist_happens_before_broadcast_witness :
    ∃ r : SensorReading,
      wResp = SensorReadingResponse.fromEntity r ∧
      r ∈ (consume wEnvOk st0 "m").1.store ∧
      (∃ post, (consume wEnvOk st0 "m").2.2 = Event.persist r :: post ∧
        Event.broadcast wResp ∈ post) ∧
      ((∀ y ∈ st0.store, y.receivedAt < wEnvOk.now) →
        r ∈ findTop50ByOrderByReceivedAtDesc (consume wEnvOk st0 "m").1) :=
  persist_happens_before_broadcast wEnvOk st0 "m" wResp (by decide)

end Ingest

namespace Front

theorem addReading_apply (st : DeviceMap) (r : Reading) (k : JsValue)
    (h : r.deviceId ≠ JsValue.null) :
    (addReading st r) k =
      if k = r.deviceId then lastN MAX_POINTS (st r.deviceId ++ [r])
      else st k := by
  simp [addReading, h, lastN]

theorem lastN_length {α : Type _} (n : Nat) (l : List α) :
    (lastN n l).length = min n l.length := by
  simp [lastN]
  omega

theorem lastN_of_le {α : Type _} (n : Nat) (l : List α)
    (h : l.length ≤ n) : lastN n l = l := by
  simp [lastN, Nat.sub_eq_zero_of_le h]

theorem lastN_append_lastN {α : Type _} (n : Nat) (xs ys : List α) :
    lastN n (lastN n xs ++ ys) = lastN n (xs ++ ys) := by
  unfold lastN
  rw [← List.drop_append_of_le_length (Nat.sub_le xs.length n),
    List.drop_drop]
  congr 1
  simp only [List.length_drop, List.length_append]
  omega

theorem self_mem_lastN_append {α : Type _} (n : Nat) (h : 1 ≤ n)
    (l : List α) (r : α) : r ∈ lastN n (l ++ [r]) := by
  unfold lastN
  have hle : (l ++ [r]).length - n ≤ l.length := by
    simp
    omega
  rw [List.drop_append_of_le_length hle]
  simp

theorem addReading_other_key (st : DeviceMap) (r : Reading) (k : JsValue)
    (h : r.deviceId ≠ k) : (addReading st r) k = st k := by
  by_cases hn : r.deviceId = JsValue.null
  · simp [addReading, hn]
  · rw [addReading_apply st r k hn]
    rw [if_neg (Ne.symm h)]

theorem addReading_length_le (st : DeviceMap) (r : Reading) (k : JsValue)
    (h : (st k).length ≤ MAX_POINTS) :
    ((addReading st r) k).length ≤ MAX_POINTS := by
  by_cases hn : r.deviceId = JsValue.null
  · simp [addReading, hn, h]
  · rw [addReading_apply st r k hn]
    by_cases hk : k = r.deviceId
    · rw [if_pos hk, lastN_length]
      exact Nat.min_le_left _ _
    · rw [if_neg hk]
      exact h

theorem foldl_addReading_length_le (L : List Reading) :
    ∀ st : DeviceMap, (∀ k, (st k).length ≤ MAX_POINTS) →
      ∀ k, ((L.foldl addReading st) k).length ≤ MAX_POINTS := by
  induction L with
  | nil => intro st h k; exact h k
  | cons r rest ih =>
      intro st h k
      exact ih (addReading st r) (fun j => addReading_length_le st r j (h j)) k

theorem foldl_addReading_apply (d : JsValue) (hd : d ≠ JsValue.null)
    (L : List Reading) :
    ∀ st : DeviceMap, (st d).length ≤ MAX_POINTS →
      (L.foldl addReading st) d =
        lastN MAX_POINTS
          (st d ++ L.filter fun r => decide (r.deviceId = d)) := by
  induction L with
  | nil =>
      intro st hlen
      simpa using (lastN_of_le _ _ hlen).symm
  | cons r rest ih =>
      intro st hlen
      by_cases hrd : r.deviceId = d
      · have hnull : r.deviceId ≠ JsValue.null := by rw [hrd]; exact hd
        have hst : (addReading st r) d = lastN MAX_POINTS (st d ++ [r]) := by
          rw [addReading_apply st r d hnull, hrd]
          simp
        have hlen2 : ((addReading st r) d).length ≤ MAX_POINTS := by
          rw [hst, lastN_length]
          exact Nat.min_le_left _ _
        calc (List.foldl addReading st (r :: rest)) d
            = (List.foldl addReading (addReading st r) rest) d := rfl
          _ = lastN MAX_POINTS ((addReading st r) d ++
                rest.filter fun x => decide (x.deviceId = d)) :=
              ih (addReading st r) hlen2
          _ = lastN MAX_POINTS (lastN MAX_POINTS (st d ++ [r]) ++
                rest.filter fun x => decide (x.deviceId = d)) := by
              rw [hst]
          _ = lastN MAX_POINTS ((st d ++ [r]) ++
                rest.filter fun x => decide (x.deviceId = d)) :=
              lastN_append_lastN _ _ _
          _ = lastN MAX_POINTS (st d ++
                (r :: rest).filter fun x => decide (x.deviceId = d)) := by
              rw [List.filter_cons_of_pos (by simp [hrd])]
              simp
      · by_cases hnull : r.deviceId = JsValue.null
        · have hskip : addReading st r = st := by simp [addReading, hnull]
          calc (List.foldl addReading st (r :: rest)) d
              = (List.foldl addReading (addReading st r) rest) d := rfl
            _ = (List.foldl addReading st rest) d := by rw [hskip]
            _ = lastN MAX_POINTS (st d ++
                  rest.filter fun x => decide (x.deviceId = d)) :=
                ih st hlen
            _ = lastN MAX_POINTS (st d ++
                  (r :: rest).filter fun x => decide (x.deviceId = d)) := by
                rw [List.filter_cons_of_neg (by simp [hrd])]
        · have hAtD : (addReading st r) d = st d :=
            addReading_other_key st r d hrd
          calc (List.foldl addReading st (r :: rest)) d
              = (List.foldl addReading (addReading st r) rest) d := rfl
            _ = lastN MAX_POINTS ((addReading st r) d ++
                  rest.filter fun x => decide (x.deviceId = d)) :=
                ih (addReading st r) (by rw [hAtD]; exact hlen)
            _ = lastN MAX_POINTS (st d ++
                  rest.filter fun x => decide (x.deviceId = d)) := by
                rw [hAtD]
            _ = lastN MAX_POINTS (st d ++
                  (r :: rest).filter fun x => decide (x.deviceId = d)) := by
                rw [List.filter_cons_of_neg (by simp [hrd])]

theorem firstTruthy_eq_default (l : List (Option JsValue)) (dflt : JsValue)
    (h : ∀ o ∈ l, ∀ v, o = some v → jsTruthy v = false) :
    firstTruthy l dflt = dflt := by
  induction l with
  | nil => rfl
  | cons o rest ih =>
      cases o with
      | none =>
          exact ih fun o2 ho2 => h o2 (by simp [ho2])
      | some v =>
          have hv := h (some v) (by simp) v rfl
          rw [firstTruthy, if_neg (by simp [hv])]
          exact ih fun o2 ho2 => h o2 (by simp [ho2])

end Front

namespace Front

/-- C7: a device series never exceeds 60 entries (`MAX_POINTS`), and
appending 65 consecutive readings for one device to the empty state
yields a series of exactly 60 entries: the 60 most recently appended
readings, in arrival order (the oldest five evicted). -/
theorem device_series_bounded :
    MAX_POINTS = 60 ∧
    (∀ (L : List Reading) (k : JsValue),
      ((L.foldl addReading emptyMap) k).length ≤ 60) ∧
    (∀ (L : List Reading) (d : JsValue), d ≠ JsValue.null →
      (∀ x ∈ L, x.deviceId = d) → L.length = 65 →
      (L.foldl addReading emptyMap) d = L.drop 5 ∧
      ((L.foldl addReading emptyMap) d).length = 60) := by
  refine ⟨rfl, ?_, ?_⟩
  · intro L k
    exact foldl_addReading_length_le L emptyMap
      (fun j => by simp [emptyMap]) k
  · intro L d hd hall hlen
    have hfilter : (L.filter fun r => decide (r.deviceId = d)) = L :=
      List.filter_eq_self.mpr fun x hx => by simp [hall x hx]
    have heq := foldl_addReading_apply d hd L emptyMap (by simp [emptyMap])
    rw [hfilter] at heq
    simp only [emptyMap, List.nil_append] at heq
    have hdrop : lastN MAX_POINTS L = L.drop 5 := by
      unfold lastN
      rw [hlen]
      rfl
    refine ⟨by rw [heq, hdrop], ?_⟩
    rw [heq, hdrop]
    simp [hlen]

theorem device_series_bounded_witness :
    ((List.replicate 65 wReading).foldl addReading emptyMap)
        (JsValue.str "a") = (List.replicate 65 wReading).drop 5 ∧
    (((List.replicate 65 wReading).foldl addReading emptyMap)
        (JsValue.str "a")).length = 60 :=
  device_series_bounded.2.2 (List.replicate 65 wReading) (JsValue.str "a")
    (by decide) (fun x hx => by rw [List.eq_of_mem_replicate hx]; rfl)
    (by simp)

/-- C8: the aggregator performs no deduplication between the historical
snapshot and the live stream — a reading X delivered once by the
historical fetch and once by the live subscription occurs twice in the
resulting device series. -/
theorem merge_keeps_duplicates (hist live : List Reading) (X : Reading)
    (d : JsValue) (hX : X.deviceId = d) (hd : d ≠ JsValue.null)
    (h1 : hist.count X = 1) (h2 : live.count X = 1)
    (hlen : ((hist ++ live).filter
      fun r => decide (r.deviceId = d)).length ≤ 60) :
    ((live.foldl addReading (hist.foldl addReading emptyMap)) d).count X
      = 2 := by
  have hfold :
      live.foldl addReading (hist.foldl addReading emptyMap) =
        (hist ++ live).foldl addReading emptyMap :=
    (List.foldl_append addReading emptyMap hist live).symm
  rw [hfold,
    foldl_addReading_apply d hd (hist ++ live) emptyMap
      (by simp [emptyMap])]
  simp only [emptyMap, List.nil_append]
  rw [lastN_of_le MAX_POINTS _ hlen]
  rw [List.filter_append, List.count_append,
    List.count_filter (by simp [hX]), List.count_filter (by simp [hX]),
    h1, h2]

theorem merge_keeps_duplicates_witness :
    (([wReading].foldl addReading
        ([wReading].foldl addReading emptyMap)) (JsValue.str "a")).count
      wReading = 2 :=
  merge_keeps_duplicates [wReading] [wReading] wReading (JsValue.str "a")
    rfl (by decide) (by decide) (by decide) (by decide)

/-- C10: client-side normalization is total and never rejects a record:
when none of the device-id alias fields (`deviceId`, `idDispositivo`,
`IdDispositivo`, `deviceID`) is present and truthy the device id becomes
the literal string, and when no timestamp alias field is present the
client's current wall-clock time is substituted; the resulting reading
is still appended to the device series under that device id. -/
theorem normalize_is_total_with_defaults (env : FrontEnv)
    (raw : RawReading) (st : DeviceMap)
    (h1 : ∀ v, raw.deviceId = some v → jsTruthy v = false)
    (h2 : ∀ v, raw.idDispositivo = some v → jsTruthy v = false)
    (h3 : ∀ v, raw.IdDispositivo = some v → jsTruthy v = false)
    (h4 : ∀ v, raw.deviceID = some v → jsTruthy v = false)
    (h5 : raw.timestamp = none) (h6 : raw.generatedAt = none)
    (h7 : raw.fechaGeneracion = none) (h8 : raw.fechaGeneracionAcc = none)
    (h9 : raw.time = none) :
    (normalizeReading env raw).deviceId = JsValue.str "desconocido" ∧
    (normalizeReading env raw).timestamp = JsValue.str env.nowIso ∧
    normalizeReading env raw ∈
      (addReading st (normalizeReading env raw))
        (JsValue.str "desconocido") := by
  have hdev : (normalizeReading env raw).deviceId =
      JsValue.str "desconocido" := by
    show toDeviceId raw = JsValue.str "desconocido"
    refine firstTruthy_eq_default _ _ ?_
    intro o ho v hv
    simp only [List.mem_cons, List.not_mem_nil, or_false] at ho
    rcases ho with ho | ho | ho | ho <;> subst ho
    · exact h1 v hv
    · exact h2 v hv
    · exact h3 v hv
    · exact h4 v hv
  have hts : (normalizeReading env raw).timestamp =
      JsValue.str env.nowIso := by
    show toTimestamp env raw = JsValue.str env.nowIso
    refine firstTruthy_eq_default _ _ ?_
    intro o ho v hv
    simp only [List.mem_cons, List.not_mem_nil, or_false] at ho
    rcases ho with ho | ho | ho | ho | ho <;> subst ho <;>
      simp_all
  refine ⟨hdev, hts, ?_⟩
  have hnn : (normalizeReading env raw).deviceId ≠ JsValue.null := by
    rw [hdev]
    simp
  rw [addReading_apply st (normalizeReading env raw) _ hnn,
    if_pos hdev.symm, hdev]
  exact self_mem_lastN_append MAX_POINTS (by decide) _ _

theorem normalize_is_total_with_defaults_witness :
    (normalizeReading ⟨"now-iso"⟩ wRawEmpty).deviceId =
      JsValue.str "desconocido" ∧
    (normalizeReading ⟨"now-iso"⟩ wRawEmpty).timestamp =
      JsValue.str "now-iso" ∧
    normalizeReading ⟨"now-iso"⟩ wRawEmpty ∈
      (addReading emptyMap (normalizeReading ⟨"now-iso"⟩ wRawEmpty))
        (JsValue.str "desconocido") :=
  normalize_is_total_with_defaults ⟨"now-iso"⟩ wRawEmpty emptyMap
    (fun v hv => by cases hv) (fun v hv => by cases hv)
    (fun v hv => by cases hv) (fun v hv => by cases hv)
    rfl rfl rfl rfl rfl

end Front

namespace Gen

/-- C9: the generator's reconnect behaviour, as configured by
`failoverUrl`, is an unbounded retry sequence with exponential backoff:
the delay starts at 1000 ms and doubles after each failure, so the 4th
attempt occurs 1000+2000+4000 = 7000 ms after the first failure; no
retry ceiling exists (`maxReconnectAttempts=-1`), and a successful
attempt returns the machine to normal-interval publishing without a
process restart. -/
theorem generator_backoff_schedule :
    attemptOffset 1000 3 = 7000 ∧
    (∀ n, backoffDelay 1000 (n + 1) = 2 * backoffDelay 1000 n) ∧
    (∀ n, givesUpAfter (-1) n = false) ∧
    (∀ n, genStep 1000 (GenState.backingOff n) true =
      (GenState.publishing, [])) ∧
    genStep 1000 GenState.publishing true =
      (GenState.publishing, [GenEvent.published]) ∧
    failoverUrl defaultBrokerUrl =
      "failover:(tcp://activemq:61616)?maxReconnectAttempts=-1&initialReconnectDelay=1000&useExponentialBackOff=true" := by
  refine ⟨by decide, ?_, ?_, ?_, rfl, by decide⟩
  · intro n
    simp [backoffDelay, pow_succ]
    ring
  · intro n
    simp [givesUpAfter]
  · intro n
    rfl

end Gen





